import Mathlib

/-! Verification of the job-agent workflow orchestration engine.

Shallow embedding of the pipeline's data model and operations:
* `Run`, `MatchedJob`, `JobPosting`, `Artifact` rows and a `DB` of row lists
  (from `src/database/models.py`, restricted to the fields the properties use);
* the completion detector `check_run_completion`
  (from `src/workflow/nodes/completion_node.py` / `src/workflow/completion.py`);
* the orchestrator node loop (from `src/workflow/job_search_workflow.py`);
* the per-item research / fabrication drivers and their failure handlers
  (from `src/workflow/nodes/research_node.py` and
  `src/fabrication/fab_cover_letter.py`);
* the delivery trigger (from `src/workflow/nodes/delivery_node.py`);
* the task-queue adapter's finalization and exception classification
  (from `src/tasks/job_search_task.py`).

Timestamps (`datetime.utcnow()`) are modelled by an explicit `now : Nat`
argument; database sessions by explicit `DB` state passing; external
collaborators (Exa research, AI fabrication, Nylas email send) by outcome
parameters.
-/

namespace JobAgent

/-- Status values used both for run lifecycle and for the per-item research /
fabrication axes: the string values `"pending" | "processing" | "completed" |
"failed"` of the source. -/
inductive Status where
  | pending
  | processing
  | completed
  | failed
deriving DecidableEq, Repr

/-- The `runs` row (`src/database/models.py`), restricted to the fields the
verified properties mention. -/
structure Run where
  id : Nat
  status : Status := .pending
  error_message : Option String := none
  research_completed_count : Nat := 0
  research_failed_count : Nat := 0
  fabrication_completed_count : Nat := 0
  fabrication_failed_count : Nat := 0
  delivery_triggered : Bool := false
  delivery_triggered_at : Option Nat := none
  completed_at : Option Nat := none
deriving DecidableEq, Repr

/-- The `matched_jobs` row with its two independent per-axis state machines. -/
structure MatchedJob where
  id : Nat
  run_id : Nat
  job_posting_id : Nat
  research_status : Status := .pending
  research_attempts : Nat := 0
  research_error : Option String := none
  research_completed_at : Option Nat := none
  fabrication_status : Status := .pending
  fabrication_attempts : Nat := 0
  fabrication_error : Option String := none
  fabrication_completed_at : Option Nat := none
deriving DecidableEq, Repr

/-- The `job_postings` row (only identity is needed by the verified code paths;
the descriptive fields are carried opaquely). -/
structure JobPosting where
  id : Nat
  title : String := ""
  company_name : String := ""
deriving DecidableEq, Repr

/-- The `artifacts` row: cover letter and CV JSON blobs are carried as opaque
optional strings (the code only tests them for presence). -/
structure Artifact where
  matched_job_id : Nat
  cover_letter : Option String := none
  cv_pdf_url : Option String := none
deriving DecidableEq, Repr

/-- The database state visible to the verified operations. -/
structure DB where
  runs : List Run := []
  matched_jobs : List MatchedJob := []
  job_postings : List JobPosting := []
  artifacts : List Artifact := []
deriving DecidableEq, Repr

/-- Embeds `session.query(Run).filter_by(id=run_id).first()`. -/
def findRun (db : DB) (rid : Nat) : Option Run :=
  db.runs.find? (fun r => r.id == rid)

/-- Mutate-and-commit of the run row with the given id (ORM object mutation
followed by `session.commit()`); ids are primary keys, so at most one row is
affected. -/
def updateRun (db : DB) (rid : Nat) (f : Run → Run) : DB :=
  { db with runs := db.runs.map (fun r => if r.id == rid then f r else r) }

/-- Embeds `session.query(MatchedJob).filter_by(run_id=run_id).all()`. -/
def runJobs (db : DB) (rid : Nat) : List MatchedJob :=
  db.matched_jobs.filter (fun m => m.run_id == rid)

/-- Embeds `matched_job.research_status in ['completed', 'failed']`. -/
def researchFinished (m : MatchedJob) : Bool :=
  m.research_status == .completed || m.research_status == .failed

/-- Embeds `matched_job.fabrication_status in ['completed', 'failed']`. -/
def fabricationFinished (m : MatchedJob) : Bool :=
  m.fabrication_status == .completed || m.fabrication_status == .failed

/-- Embeds `CompletionNode._check_run_completion`
(`src/workflow/nodes/completion_node.py`, lines 57-100; the module-level
`check_run_completion` of `src/workflow/completion.py` lines 16-60 is
textually the same function). Returns the boolean result together with the
database after any status write. -/
def check_run_completion (db : DB) (run_id : Nat) (now : Nat) : Bool × DB :=
  match findRun db run_id with
  | none => (false, db)
  | some run =>
    let matched_jobs := runJobs db run_id
    if matched_jobs.isEmpty then
      -- "No matched jobs means run is not complete yet (or invalid)"
      (false, db)
    else
      let all_research_finished := matched_jobs.all researchFinished
      let all_fabrication_finished := matched_jobs.all fabricationFinished
      let is_complete := all_research_finished && all_fabrication_finished
      if is_complete && !(run.status == .completed) then
        (is_complete,
          updateRun db run_id (fun r =>
            { r with status := .completed, completed_at := some now }))
      else
        (is_complete, db)

/-! Workflow orchestrator (`src/workflow/job_search_workflow.py`) -/

/-- Embeds `JobSearchWorkflowContext` (`src/workflow/base_context.py`), restricted to
the fields the verified properties touch; the result-list fields are carried
opaquely as an abstract payload so that a node's effect on them is
observable. -/
structure Context where
  run_id : Option Nat := none
  query : String := ""
  location : String := ""
  user_profile : Option String := none
  errors : List String := []
deriving DecidableEq, Repr

/-- Embeds `BaseContext.add_error`: append an error message. -/
def Context.add_error (c : Context) (e : String) : Context :=
  { c with errors := c.errors ++ [e] }

/-- Embeds `BaseContext.has_errors`: `len(self.errors) > 0`. -/
def Context.has_errors (c : Context) : Bool :=
  decide (c.errors.length > 0)

/-- A pipeline node: `node.run(context)` either returns an updated context or
raises an exception (modelled by `Except`); the orchestrator catches the
exception. -/
structure Node where
  name : String
  exec : Context → Except String Context

/-- One iteration of the orchestrator's node loop
(`JobSearchWorkflow.run`, lines 177-209): execute the node; on an exception
append `"Node {name} failed: {e}"` to the context's errors and keep going. -/
def runNode (ctx : Context) (n : Node) : Context :=
  match n.exec ctx with
  | .ok ctx2 => ctx2
  | .error e => ctx.add_error ("Node " ++ n.name ++ " failed: " ++ e)

/-- The orchestrator's `for i, node in enumerate(self.nodes)` loop: every node
in the list is executed in order; there is no `break` — errors only produce a
log line (`if context.has_errors(): logger.warning(...)`) and exceptions are
converted to appended errors followed by `continue`. -/
def workflowRun (nodes : List Node) (ctx : Context) : Context :=
  nodes.foldl runNode ctx

/-- A node that records an error in the context and returns normally. -/
def errNode : Node :=
  ⟨"ErrNode", fun c => .ok (c.add_error "boom")⟩

/-- A node whose execution is observable: it overwrites the context's
`query` field. -/
def markNode : Node :=
  ⟨"MarkNode", fun c => .ok { c with query := "node2 ran" }⟩

/-- The context the orchestrator loop starts from in the counterexample. -/
def ctx0 : Context := {}

/-- C2 counterexample. With the two-node list `[errNode, markNode]`: after
node 1 the errors list is non-empty, yet node 2 still executes (its write to
`query` is visible in the result) and the returned context is not the context
as it stood after node 1 — the loop has no halt-on-error branch. -/
theorem workflow_no_halt_counterexample :
    (runNode ctx0 errNode).has_errors = true
    ∧ (workflowRun [errNode, markNode] ctx0).query = "node2 ran"
    ∧ workflowRun [errNode, markNode] ctx0 ≠ runNode ctx0 errNode := by
  refine ⟨rfl, rfl, ?_⟩
  decide

/-- C2 (amended). Errors never halt the orchestrator: for any split of the
node list, the suffix is always executed on the context produced by the
prefix, whether or not that context carries errors; a node exception is
converted into an appended error and execution continues with the next
node. -/
theorem workflow_executes_all_nodes (pre post : List Node) (n : Node)
    (ctx : Context) :
    workflowRun (pre ++ post) ctx = workflowRun post (workflowRun pre ctx)
    ∧ workflowRun (n :: post) ctx = workflowRun post (runNode ctx n) := by
  refine ⟨?_, rfl⟩
  unfold workflowRun
  exact List.foldl_append _ _ _ _

/-! Per-item retry state machine.
Research axis: `src/workflow/nodes/research_node.py`; fabrication axis:
`src/fabrication/fab_cover_letter.py`. The external providers (Exa research,
AI agents, PDF rendering) are modelled by an `outcome` parameter: `.ok` for a
normal return, `.error e` for a raised exception with message `e`. In the
model the owning `Run` row is passed alongside the `MatchedJob` (the source
looks it up by `matched_job.run_id`, which is always set for run-driven
items). -/

/-- The `except` block of `ResearchNode._research_company_for_job`
(lines 202-214): on failure, status becomes `failed` when
`research_attempts >= max_retries` and `pending` otherwise, the error message
is recorded, and `research_failed_count` is incremented whenever
`research_attempts >= max_retries` (no first-transition guard in this
handler). -/
def research_handle_failure (mj : MatchedJob) (run : Run) (error_msg : String)
    (max_retries : Nat) : MatchedJob × Run :=
  let mj2 := { mj with
    research_status :=
      if mj.research_attempts ≥ max_retries then .failed else .pending,
    research_error := some error_msg }
  let run2 :=
    if mj2.research_attempts ≥ max_retries then
      { run with research_failed_count := run.research_failed_count + 1 }
    else run
  (mj2, run2)

/-- Embeds `ResearchNode._research_company_for_job` (lines 102-215).
`existing` is the result of the `CompanyResearch` lookup for the posting;
`outcome` the Exa provider call (`.ok answer_text` or `.error e`); an empty
answer raises `ValueError("No research results received")` into the same
handler. The third component reports whether a result dict (success) or
`None` (failure) is returned. -/
def research_company_for_job (mj : MatchedJob) (run : Run) (existing : Bool)
    (outcome : Except String String) (max_retries now : Nat) :
    MatchedJob × Run × Bool :=
  if existing then
    let was_completed := mj.research_status = .completed
    let mj2 := { mj with research_status := .completed,
                         research_completed_at := some now,
                         research_error := none }
    let run2 :=
      if ¬was_completed then
        { run with research_completed_count := run.research_completed_count + 1 }
      else run
    (mj2, run2, true)
  else
    let mj1 := { mj with research_status := .processing,
                         research_attempts := mj.research_attempts + 1 }
    match outcome with
    | .ok answer =>
      if answer = "" then
        let fr := research_handle_failure mj1 run "No research results received"
          max_retries
        (fr.1, fr.2, false)
      else
        -- `was_completed` is read while the status is still "processing"
        let was_completed := mj1.research_status = .completed
        let mj2 := { mj1 with research_status := .completed,
                              research_completed_at := some now,
                              research_error := none }
        let run2 :=
          if ¬was_completed then
            { run with research_completed_count := run.research_completed_count + 1 }
          else run
        (mj2, run2, true)
    | .error e =>
      let fr := research_handle_failure mj1 run e max_retries
      (fr.1, fr.2, false)

/-- One iteration of the `ResearchNode.run` loop over a run's matched jobs
(lines 271-299): skip items already `completed`; skip items `failed` at the
retry ceiling; mark the item `failed` (attempts incremented, no run-counter
change) when its job posting is missing; otherwise drive
`_research_company_for_job`. The `Nat` component counts external provider
calls made for the item (the Exa call happens only on the fresh-research
path). -/
def research_drive_item (mj : MatchedJob) (run : Run) (posting_found : Bool)
    (existing : Bool) (outcome : Except String String) (max_retries now : Nat) :
    MatchedJob × Run × Nat :=
  if mj.research_status = .completed then (mj, run, 0)
  else if mj.research_attempts ≥ max_retries ∧ mj.research_status = .failed then
    (mj, run, 0)
  else if posting_found = false then
    ({ mj with
        research_status := .failed,
        research_error :=
          some ("Job posting " ++ toString mj.job_posting_id ++ " not found"),
        research_attempts := mj.research_attempts + 1 }, run, 0)
  else
    let r := research_company_for_job mj run existing outcome max_retries now
    (r.1, r.2.1, if existing then 0 else 1)

/-- The `except` block of `fabricate_application_materials_for_job`
(`src/fabrication/fab_cover_letter.py`, lines 542-562): status becomes
`failed` when `fabrication_attempts >= max_retries` and `pending` otherwise,
the error is recorded — and the source computes `was_failed` from the status
it has just assigned, so the `fabrication_failed_count` increment guard
(`attempts >= max_retries and not was_failed`) can never hold. -/
def fabrication_handle_failure (mj : MatchedJob) (run : Run) (error_msg : String)
    (max_retries : Nat) : MatchedJob × Run :=
  let mj2 := { mj with
    fabrication_status :=
      if mj.fabrication_attempts ≥ max_retries then .failed else .pending,
    fabrication_error := some error_msg }
  -- `was_failed = matched_job.fabrication_status == "failed"` — read AFTER the
  -- assignment above, exactly as in the source
  let was_failed := mj2.fabrication_status = .failed
  let run2 :=
    if mj2.fabrication_attempts ≥ max_retries ∧ ¬was_failed then
      { run with fabrication_failed_count := run.fabrication_failed_count + 1 }
    else run
  (mj2, run2)

/-- Embeds `fabricate_application_materials_for_job` (lines 370-573): set status to
`processing`, increment attempts, then either the whole generation pipeline
succeeds (`.ok`: agents, PDF rendering and artifact upsert, abstracted) or
some step raises (`.error e`, including the posting-not-found `ValueError`,
which is raised inside the `try`). -/
def fabricate_job (mj : MatchedJob) (run : Run) (outcome : Except String Unit)
    (max_retries now : Nat) : MatchedJob × Run × Bool :=
  let mj1 := { mj with fabrication_status := .processing,
                       fabrication_attempts := mj.fabrication_attempts + 1 }
  match outcome with
  | .ok _ =>
    -- `was_completed` is read while the status is still "processing"
    let was_completed := mj1.fabrication_status = .completed
    let mj2 := { mj1 with fabrication_status := .completed,
                          fabrication_completed_at := some now,
                          fabrication_error := none }
    let run2 :=
      if ¬was_completed then
        { run with
            fabrication_completed_count := run.fabrication_completed_count + 1 }
      else run
    (mj2, run2, true)
  | .error e =>
    let fr := fabrication_handle_failure mj1 run e max_retries
    (fr.1, fr.2, false)

/-- One iteration of the `fabricate_matched_jobs_for_run` loop
(lines 619-651): skip items already `completed`; skip items `failed` at the
retry ceiling; otherwise drive `fabricate_application_materials_for_job`.
The `Nat` component counts driven fabrication attempts (each makes external
agent calls). -/
def fabrication_drive_item (mj : MatchedJob) (run : Run)
    (outcome : Except String Unit) (max_retries now : Nat) :
    MatchedJob × Run × Nat :=
  if mj.fabrication_status = .completed then (mj, run, 0)
  else if mj.fabrication_attempts ≥ max_retries ∧ mj.fabrication_status = .failed then
    (mj, run, 0)
  else
    let r := fabricate_job mj run outcome max_retries now
    (r.1, r.2.1, 1)

/-- Outcomes `.ok ""` (empty answer, raising `ValueError`) and `.error e` are the
provider outcomes that end a fresh research attempt in failure. -/
def researchOutcomeFails : Except String String → Bool
  | .ok a => a == ""
  | .error _ => true

/-- A matched job one failing attempt away from the fabrication retry
ceiling. -/
def mjAtCeiling : MatchedJob :=
  { id := 0, run_id := 0, job_posting_id := 0,
    fabrication_status := .pending, fabrication_attempts := 3 }

/-- The owning run of `mjAtCeiling`, with all counters at zero. -/
def runOwner : Run := { id := 0, status := .processing }

/-- C3. The fabrication failure handler never increments the owning run's
`fabrication_failed_count`: the guard reads `was_failed` from the status the
handler has just overwritten, so it is false exactly when the increment
should fire. In particular, at the failing input (`fabrication_attempts = 3`,
`max_retries = 3`, counter 0) the item transitions into `failed` but the
counter stays 0, contradicting the claimed first-transition increment (and
the source's own comment "only increment failed count if marking as failed
for first time"). -/
theorem fabrication_failed_count_never_incremented :
    (∀ mj run e max, (fabrication_handle_failure mj run e max).2 = run)
    ∧ (fabrication_handle_failure mjAtCeiling runOwner "agent error" 3).1.fabrication_status
        = .failed
    ∧ (fabrication_handle_failure mjAtCeiling runOwner "agent error" 3).2.fabrication_failed_count
        = 0 := by
  refine ⟨?_, rfl, rfl⟩
  intro mj run e max
  by_cases h : mj.fabrication_attempts ≥ max <;>
    simp [fabrication_handle_failure, h]

/-- A matched job on its first research attempt, used for the missing-posting
counterexample. -/
def mjFresh : MatchedJob :=
  { id := 1, run_id := 0, job_posting_id := 5,
    research_status := .pending, research_attempts := 0 }

/-- C6 counterexample. With `max_retries = 3`, driving `mjFresh` when its job
posting is missing marks the research axis `failed` after a single attempt
(`research_attempts = 1`), so `failed` is reached without the axis having
been attempted exactly `max_retries` times. -/
theorem research_failed_before_ceiling_counterexample :
    (research_drive_item mjFresh runOwner false false (.error "x") 3 0).1.research_status
        = .failed
    ∧ (research_drive_item mjFresh runOwner false false (.error "x") 3 0).1.research_attempts
        = 1 :=
  ⟨rfl, rfl⟩

/-- C6 (amended). For a driven, non-skipped item, the research axis ends the
drive in `failed` iff either its job posting is missing (at any attempt
count) or a fresh provider attempt fails with the incremented attempt count
at or above `max_retries`; and a failing fabrication attempt ends in `failed`
iff its incremented attempt count is at or above `max_retries`. -/
theorem drive_item_failed_iff (mj : MatchedJob) (run : Run)
    (found existing : Bool) (outcome : Except String String) (max now : Nat)
    (h1 : mj.research_status ≠ .completed)
    (h2 : ¬(mj.research_attempts ≥ max ∧ mj.research_status = .failed)) :
    ((research_drive_item mj run found existing outcome max now).1.research_status
        = .failed ↔
      (found = false ∨ (existing = false ∧ researchOutcomeFails outcome = true
        ∧ mj.research_attempts + 1 ≥ max)))
    ∧ (∀ e, (fabricate_job mj run (.error e) max now).1.fabrication_status
        = .failed ↔ mj.fabrication_attempts + 1 ≥ max) := by
  constructor
  · unfold research_drive_item
    rw [if_neg (by simpa using h1), if_neg h2]
    cases found with
    | false => simp
    | true =>
      cases existing with
      | true =>
        simp [research_company_for_job]
      | false =>
        cases outcome with
        | error e =>
          by_cases hc : mj.research_attempts + 1 ≥ max <;>
            simp [research_company_for_job, research_handle_failure,
              researchOutcomeFails, hc]
        | ok a =>
          by_cases ha : a = ""
          · by_cases hc : mj.research_attempts + 1 ≥ max <;>
              simp [research_company_for_job, research_handle_failure,
                researchOutcomeFails, ha, hc]
          · simp [research_company_for_job, researchOutcomeFails, ha]
  · intro e
    by_cases hc : mj.fabrication_attempts + 1 ≥ max <;>
      simp [fabricate_job, fabrication_handle_failure, hc]

/-- C6 witness: a fresh pending item with `max_retries = 1` whose provider
call raises is marked `failed` by the drive (the amended characterization
applied at a concrete input). -/
theorem drive_item_failed_iff_witness :
    (research_drive_item mjFresh runOwner true false (.error "x") 1 0).1.research_status
        = .failed :=
  ((drive_item_failed_iff mjFresh runOwner true false (.error "x") 1 0
      (by decide) (by decide)).1).mpr (Or.inr ⟨rfl, rfl, by decide⟩)

/-- C9. Terminal stability of the driving loops: an item whose axis is
already `completed`, or `failed` at the retry ceiling, is skipped — the
`MatchedJob` row, the owning `Run` row (all its counters included) are
returned unchanged and zero external provider calls are made for it. -/
theorem drive_item_skips_terminal (mj : MatchedJob) (run : Run)
    (found existing : Bool) (outcome : Except String String)
    (fout : Except String Unit) (max now : Nat) :
    (mj.research_status = .completed →
      research_drive_item mj run found existing outcome max now = (mj, run, 0))
    ∧ (mj.research_attempts ≥ max → mj.research_status = .failed →
      research_drive_item mj run found existing outcome max now = (mj, run, 0))
    ∧ (mj.fabrication_status = .completed →
      fabrication_drive_item mj run fout max now = (mj, run, 0))
    ∧ (mj.fabrication_attempts ≥ max → mj.fabrication_status = .failed →
      fabrication_drive_item mj run fout max now = (mj, run, 0)) := by
  refine ⟨?_, ?_, ?_, ?_⟩
  · intro h
    unfold research_drive_item
    rw [if_pos h]
  · intro ha hs
    unfold research_drive_item
    rw [if_neg (by simp [hs]), if_pos ⟨ha, hs⟩]
  · intro h
    unfold fabrication_drive_item
    rw [if_pos h]
  · intro ha hs
    unfold fabrication_drive_item
    rw [if_neg (by simp [hs]), if_pos ⟨ha, hs⟩]

/-- A matched job with research already `completed` and fabrication `failed`
at the retry ceiling. -/
def mjTerminal : MatchedJob :=
  { id := 2, run_id := 0, job_posting_id := 0,
    research_status := .completed,
    fabrication_status := .failed, fabrication_attempts := 3 }

/-- C9 witness: driving `mjTerminal` on either axis changes nothing and makes
no external call. -/
theorem drive_item_skips_terminal_witness :
    research_drive_item mjTerminal runOwner true false (.error "x") 3 0
        = (mjTerminal, runOwner, 0)
    ∧ fabrication_drive_item mjTerminal runOwner (.error "y") 3 0
        = (mjTerminal, runOwner, 0) :=
  ⟨(drive_item_skips_terminal mjTerminal runOwner true false (.error "x")
      (.error "y") 3 0).1 rfl,
   (drive_item_skips_terminal mjTerminal runOwner true false (.error "x")
      (.error "y") 3 0).2.2.2 (by decide) rfl⟩

/-! Delivery trigger (`src/workflow/nodes/delivery_node.py`)
The email collaborator (`NylasService.send_job_application_email`) is
modelled by a `SendOutcome` parameter: a reported success, a reported
failure (`send_result["success"]` falsy), or a raised exception (caught by
the `except` around the send). -/

/-- Outcome of the external email-delivery collaborator. -/
inductive SendOutcome where
  | success (message_id : String) (recipient : String) (items_sent : Nat)
  | failure (error : String)
  | raised (error : String)
deriving DecidableEq, Repr

/-- The delivery summary dictionary returned by `_trigger_delivery`. -/
structure DeliveryResult where
  run_id : Nat
  items_delivered : Nat
  status : String
  error : Option String := none
deriving DecidableEq, Repr

/-- Embeds `DeliveryNode._get_completed_items_for_delivery` (lines 68-157): the
matched jobs of the run with both axes `completed`, keeping only those whose
job posting exists and whose artifact exists with a non-null cover letter.
The assembled package contents are abstracted to the matched-job ids (the
verified properties only inspect emptiness). -/
def get_completed_items_for_delivery (db : DB) (rid : Nat) : List Nat :=
  (db.matched_jobs.filter (fun m =>
      m.run_id == rid && m.research_status == .completed
        && m.fabrication_status == .completed)).filterMap (fun m =>
    match db.job_postings.find? (fun jp => jp.id == m.job_posting_id) with
    | none => none
    | some _ =>
      match db.artifacts.find? (fun a => a.matched_job_id == m.id) with
      | none => none
      | some a =>
        match a.cover_letter with
        | none => none
        | some _ => some m.id)

/-- Embeds `DeliveryNode._trigger_delivery` (lines 159-246): with no completed items
return the `"no_items"` summary without touching the database; otherwise send
via the collaborator and, only on a reported success, set
`delivery_triggered = true` with a timestamp (a reported failure or a raised
exception returns a `"failed"` summary and writes nothing). -/
def delivery_node_trigger (db : DB) (rid : Nat) (send : SendOutcome)
    (now : Nat) : DeliveryResult × DB :=
  let completed_items := get_completed_items_for_delivery db rid
  if completed_items.isEmpty then
    ({ run_id := rid, items_delivered := 0, status := "no_items" }, db)
  else
    match send with
    | .success _message_id _recipient items_sent =>
      let db2 := updateRun db rid (fun r =>
        { r with delivery_triggered := true, delivery_triggered_at := some now })
      ({ run_id := rid, items_delivered := items_sent, status := "delivered",
         error := none }, db2)
    | .failure e =>
      ({ run_id := rid, items_delivered := 0, status := "failed",
         error := some e }, db)
    | .raised e =>
      ({ run_id := rid, items_delivered := 0, status := "failed",
         error := some e }, db)

/-- Embeds `DeliveryNode._execute` (lines 248-284): require `run_id` in the context,
then invoke `_trigger_delivery` unconditionally — there is no check of
`delivery_triggered` before the trigger is invoked. -/
def delivery_node_execute (db : DB) (ctx : Context) (send : SendOutcome)
    (now : Nat) : Context × DB :=
  match ctx.run_id with
  | none => (ctx.add_error "Run ID is required for delivery", db)
  | some rid =>
    let r := delivery_node_trigger db rid send now
    (ctx, r.2)

/-- C4. The delivery trigger (i) on an empty completed set reports the
`"no_items"` no-op and leaves the database — hence `delivery_triggered` —
untouched; (ii) never mutates the database unless the collaborator reports
success; and (iii) on a non-empty set with a reported success performs
exactly the write that sets `delivery_triggered = true` with the timestamp
`now`. -/
theorem delivery_trigger_gated_on_success (db : DB) (rid : Nat)
    (send : SendOutcome) (now : Nat) :
    (get_completed_items_for_delivery db rid = [] →
      (delivery_node_trigger db rid send now).1.status = "no_items"
        ∧ (delivery_node_trigger db rid send now).2 = db)
    ∧ ((∀ m r n, send ≠ .success m r n) →
      (delivery_node_trigger db rid send now).2 = db)
    ∧ (get_completed_items_for_delivery db rid ≠ [] →
      ∀ m r n, send = .success m r n →
      (delivery_node_trigger db rid send now).2 =
        updateRun db rid (fun r0 =>
          { r0 with delivery_triggered := true,
                    delivery_triggered_at := some now })) := by
  refine ⟨?_, ?_, ?_⟩
  · intro h
    constructor <;> simp [delivery_node_trigger, h]
  · intro h
    cases send with
    | success m r n => exact absurd rfl (h m r n)
    | failure e =>
      by_cases hc : (get_completed_items_for_delivery db rid).isEmpty <;>
        simp [delivery_node_trigger, hc]
    | raised e =>
      by_cases hc : (get_completed_items_for_delivery db rid).isEmpty <;>
        simp [delivery_node_trigger, hc]
  · intro hne m r n hs
    subst hs
    simp [delivery_node_trigger, List.isEmpty_iff, hne]

/-- A database in which run 0 has one fully completed matched job with an
artifact carrying a cover letter, and delivery has already been triggered
(at time 1). -/
def dbTriggered : DB :=
  { runs := [{ id := 0, status := .completed, delivery_triggered := true,
               delivery_triggered_at := some 1 }],
    matched_jobs := [{ id := 7, run_id := 0, job_posting_id := 3,
                       research_status := .completed,
                       fabrication_status := .completed }],
    job_postings := [{ id := 3 }],
    artifacts := [{ matched_job_id := 7, cover_letter := some "cl" }] }

/-- Like `dbTriggered` but with delivery not yet triggered. -/
def dbUntriggered : DB :=
  { runs := [{ id := 0, status := .completed }],
    matched_jobs := [{ id := 7, run_id := 0, job_posting_id := 3,
                       research_status := .completed,
                       fabrication_status := .completed }],
    job_postings := [{ id := 3 }],
    artifacts := [{ matched_job_id := 7, cover_letter := some "cl" }] }

/-- An empty-set delivery context: run 0 exists but has no completed items. -/
def dbNothingToDeliver : DB :=
  { runs := [{ id := 0, status := .processing }],
    matched_jobs := [{ id := 7, run_id := 0, job_posting_id := 3 }] }

/-- C4 witness: the trigger applied at concrete inputs — the no-op case on a
database with no deliverable item, the failure-report case leaving the
database unchanged, and the success case writing the delivery flag. -/
theorem delivery_trigger_gated_on_success_witness :
    ((delivery_node_trigger dbNothingToDeliver 0 (.failure "f") 5).1.status = "no_items"
      ∧ (delivery_node_trigger dbNothingToDeliver 0 (.failure "f") 5).2 = dbNothingToDeliver)
    ∧ (delivery_node_trigger dbUntriggered 0 (.failure "f") 5).2 = dbUntriggered
    ∧ (delivery_node_trigger dbUntriggered 0 (.success "mid" "rcpt" 1) 5).2 =
        updateRun dbUntriggered 0 (fun r0 =>
          { r0 with delivery_triggered := true,
                    delivery_triggered_at := some 5 }) :=
  ⟨(delivery_trigger_gated_on_success dbNothingToDeliver 0 (.failure "f") 5).1 rfl,
   (delivery_trigger_gated_on_success dbUntriggered 0 (.failure "f") 5).2.1
      (by intro m r n h; cases h),
   (delivery_trigger_gated_on_success dbUntriggered 0 (.success "mid" "rcpt" 1) 5).2.2
      (by decide) "mid" "rcpt" 1 rfl⟩

/-- C5 counterexample. Run 0 of `dbTriggered` already has
`delivery_triggered = true`, yet re-invoking the delivery node (through its
caller `_execute`, which performs no `delivery_triggered` check) re-runs the
delivery and mutates the database — `delivery_triggered_at` is refreshed to
the new timestamp — so re-invocation on an already-triggered run is not a
guarded no-op. -/
theorem delivery_reinvocation_not_noop_counterexample :
    (findRun dbTriggered 0).map (fun r => r.delivery_triggered) = some true
    ∧ (delivery_node_execute dbTriggered { run_id := some 0 }
        (.success "mid" "rcpt" 1) 99).2 ≠ dbTriggered
    ∧ (findRun (delivery_node_execute dbTriggered { run_id := some 0 }
        (.success "mid" "rcpt" 1) 99).2 0).map (fun r => r.delivery_triggered_at)
        = some (some 99) := by
  refine ⟨rfl, ?_, rfl⟩
  decide

/-- C5 (amended). Each invocation of the delivery trigger either leaves the
database unchanged or performs the single write that sets
`delivery_triggered = true` (refreshing its timestamp); it never resets the
flag, so across any sequence of invocations `delivery_triggered` transitions
false→true at most once — but the transition is not caller-guarded, and a
successful re-invocation re-runs delivery and refreshes
`delivery_triggered_at`. -/
theorem delivery_trigger_flag_monotone (db : DB) (rid : Nat)
    (send : SendOutcome) (now : Nat) :
    (delivery_node_trigger db rid send now).2 = db
    ∨ (delivery_node_trigger db rid send now).2 =
        updateRun db rid (fun r0 =>
          { r0 with delivery_triggered := true,
                    delivery_triggered_at := some now }) := by
  cases send with
  | success m r n =>
    by_cases hc : (get_completed_items_for_delivery db rid).isEmpty
    · exact Or.inl (by simp [delivery_node_trigger, hc])
    · exact Or.inr (by simp [delivery_node_trigger, hc])
  | failure e =>
    refine Or.inl ?_
    by_cases hc : (get_completed_items_for_delivery db rid).isEmpty <;>
      simp [delivery_node_trigger, hc]
  | raised e =>
    refine Or.inl ?_
    by_cases hc : (get_completed_items_for_delivery db rid).isEmpty <;>
      simp [delivery_node_trigger, hc]

/-! Task-queue adapter (`src/tasks/job_search_task.py`) -/

/-- One exception in a `__cause__` chain, as the adapter's classifier
distinguishes them: `ModelHTTPError` with an HTTP status code, `RuntimeError`
with a message, or any other exception. An exception value is its chain — a
list whose head is the exception itself and whose tail is the successive
`__cause__` links (empty tail = `__cause__ is None`). -/
inductive ExcInfo where
  | modelHTTPError (status_code : Nat)
  | runtimeError (message : String)
  | otherExc
deriving DecidableEq, Repr

/-- Embeds `"Event loop is closed" in str(exc)`: substring containment on the
`RuntimeError` message. -/
def mentionsLoopClosed (msg : String) : Bool :=
  msg.toList.tails.any (fun t => "Event loop is closed".toList.isPrefixOf t)

/-- The per-link non-retryable tests of `_is_retryable`: an HTTP 4xx
`ModelHTTPError`, or a `RuntimeError` whose text contains
"Event loop is closed". -/
def excNonRetryable : ExcInfo → Bool
  | .modelHTTPError status => decide (400 ≤ status ∧ status < 500)
  | .runtimeError msg => mentionsLoopClosed msg
  | .otherExc => false

/-- Embeds `_is_retryable` (lines 34-45): return `False` as soon as a link of the
`__cause__` chain is a 4xx `ModelHTTPError` or an "Event loop is closed"
`RuntimeError`; recurse into the cause otherwise; `True` once the chain
ends. -/
def is_retryable : List ExcInfo → Bool
  | [] => true
  | k :: rest => if excNonRetryable k then false else is_retryable rest

/-- Embeds `str(exc)`, abstracted: the carried message for a `RuntimeError`, a
constructor tag otherwise (the adapter only stores it as error text). -/
def excMessage : List ExcInfo → String
  | .modelHTTPError status :: _ => "ModelHTTPError " ++ toString status
  | .runtimeError msg :: _ => msg
  | _ => "error"

/-- Modelled from the spec: `update_run_status` is imported by the adapters
from `src.tasks.utils` but no definition of it exists under `src/` (that
module only defines `update_execution_status`). Per the spec's task-queue
adapter contract ("mark Run `processing`"/"mark Run `failed` with the joined
error text") and the source's own reference to it ("update_run_status (final
completed/failed)", `src/workflow/status_publisher.py`), it writes the given
status — and the error message when one is supplied — to the Run row. -/
def update_run_status (db : DB) (rid : Nat) (status : Status)
    (error_message : Option String) : DB :=
  updateRun db rid (fun r =>
    { r with
        status := status,
        error_message :=
          match error_message with
          | some e => some e
          | none => r.error_message })

/-- Embeds `"; ".join(result.errors)`. -/
def joinErrors (errors : List String) : String :=
  String.intercalate "; " errors

/-- The normal-completion tail of `execute_job_search_workflow`
(lines 186-192): `final_status = "failed" if result.has_errors() else
"completed"`, then — whenever a `run_id` was passed — write that status (with
the joined error text when there are errors) via `update_run_status`. -/
def task_finalize_run (db : DB) (run_id : Option Nat) (errors : List String) :
    DB :=
  let final_status : Status := if errors.isEmpty then .completed else .failed
  match run_id with
  | none => db
  | some rid =>
    update_run_status db rid final_status
      (if errors.isEmpty then none else some (joinErrors errors))

/-- The retry action the Celery machinery is asked to take after an
exception escapes the workflow. -/
inductive TaskAction where
  | raiseNoRetry
  | retryTask (countdown : Nat) (max_retries : Nat)
deriving DecidableEq, Repr

/-- The `except` block of `execute_job_search_workflow` (lines 216-229): mark
the run `failed` with the exception text, then either re-raise without
consuming the retry budget (non-retryable) or re-enqueue with
`self.retry(countdown=60, max_retries=3)` — a fixed 60-second countdown. -/
def task_on_exception (db : DB) (run_id : Option Nat) (exc : List ExcInfo) :
    DB × TaskAction :=
  let db2 :=
    match run_id with
    | some rid => update_run_status db rid .failed (some (excMessage exc))
    | none => db
  if is_retryable exc = false then (db2, .raiseNoRetry)
  else (db2, .retryTask 60 3)

/-- A database whose single run is still `processing` — the pipeline's
completion detector deliberately left it incomplete. -/
def dbProcessing : DB := { runs := [{ id := 0, status := .processing }] }

/-- C7 counterexample. The workflow returned normally with no errors while
the completion detector had left run 0 in `processing`; the claim says the
adapter writes no status, but the code calls `update_run_status` with
`"completed"` unconditionally: the run's status changes from `processing` to
`completed`. -/
theorem task_finalize_overwrites_status_counterexample :
    (findRun dbProcessing 0).map (fun r => r.status) = some .processing
    ∧ (findRun (task_finalize_run dbProcessing (some 0) []) 0).map
        (fun r => r.status) = some .completed :=
  ⟨rfl, rfl⟩

/-- C7 (amended). After a normal workflow return the adapter always writes a
final status itself: every run row with the given id ends with status
`failed` and the joined error text when the context carries errors, and with
status `completed` when it carries none — it does not defer to the status the
completion detector left. -/
theorem task_finalize_writes_final_status (db : DB) (rid : Nat)
    (errors : List String) (r : Run)
    (hr : r ∈ (task_finalize_run db (some rid) errors).runs)
    (hid : r.id = rid) :
    (errors = [] → r.status = .completed)
    ∧ (errors ≠ [] → r.status = .failed
        ∧ r.error_message = some (joinErrors errors)) := by
  rcases eq_or_ne errors [] with he | he
  · subst he
    refine ⟨fun _ => ?_, fun h => absurd rfl h⟩
    simp only [task_finalize_run, update_run_status, updateRun,
      List.isEmpty_nil, if_true] at hr
    rcases List.mem_map.mp hr with ⟨r0, _, hr0⟩
    by_cases h0 : r0.id = rid
    · simp [h0] at hr0
      rw [← hr0]
    · simp [h0] at hr0
      rw [← hr0] at hid
      exact absurd hid h0
  · refine ⟨fun h => absurd h he, fun _ => ?_⟩
    simp only [task_finalize_run, update_run_status, updateRun,
      List.isEmpty_iff, he, if_false] at hr
    rcases List.mem_map.mp hr with ⟨r0, _, hr0⟩
    by_cases h0 : r0.id = rid
    · simp [h0] at hr0
      rw [← hr0]
      exact ⟨rfl, rfl⟩
    · simp [h0] at hr0
      rw [← hr0] at hid
      exact absurd hid h0

/-- The run row present after finalizing `dbProcessing`'s run with the single
error "boom". -/
def runFailedBoom : Run :=
  { id := 0, status := .failed, error_message := some "boom" }

/-- C7 witness: finalizing run 0 of `dbProcessing` with one error marks it
`failed` with that error text; the theorem is applied at the run row actually
present after finalization. -/
theorem task_finalize_writes_final_status_witness :
    runFailedBoom.status = .failed
    ∧ runFailedBoom.error_message = some (joinErrors ["boom"]) :=
  (task_finalize_writes_final_status dbProcessing 0 ["boom"] runFailedBoom
    (by decide) rfl).2 (by decide)

/-- The "Event loop is closed" `RuntimeError` the worker raises when httpx
cleanup outlives the loop (no `__cause__`). -/
def loopClosedExc : List ExcInfo := [.runtimeError "Event loop is closed"]

/-- C8 counterexample. `RuntimeError("Event loop is closed")` is not an HTTP
4xx provider error, yet the adapter classifies it non-retryable and
re-raises without re-enqueueing — so it is not true that every non-4xx
exception is re-enqueued for retry. -/
theorem non_4xx_not_retried_counterexample :
    is_retryable loopClosedExc = false
    ∧ (task_on_exception dbProcessing (some 0) loopClosedExc).2 = .raiseNoRetry
    ∧ (findRun (task_on_exception dbProcessing (some 0) loopClosedExc).1 0).map
        (fun r => r.status) = some .failed := by
  refine ⟨?_, ?_, ?_⟩ <;> decide

/-- C8 (amended). A direct 4xx provider error is classified non-retryable;
the adapter always first marks the run `failed` with the exception text; a
non-retryable exception is re-raised without consuming the retry budget; and
a retryable one is re-enqueued with a fixed 60-second countdown and a retry
ceiling of 3 (not exponential backoff). -/
theorem task_exception_classification (db : DB) (rid : Nat)
    (exc : List ExcInfo) (status : Nat) (cause : List ExcInfo)
    (h4 : 400 ≤ status) (h5 : status < 500) :
    is_retryable (.modelHTTPError status :: cause) = false
    ∧ (task_on_exception db (some rid) exc).1 =
        update_run_status db rid .failed (some (excMessage exc))
    ∧ (is_retryable exc = false →
        (task_on_exception db (some rid) exc).2 = .raiseNoRetry)
    ∧ (is_retryable exc = true →
        (task_on_exception db (some rid) exc).2 = .retryTask 60 3) := by
  refine ⟨?_, ?_, ?_, ?_⟩
  · simp [is_retryable, excNonRetryable, h4, h5]
  · by_cases h : is_retryable exc = false <;> simp [task_on_exception, h]
  · intro h
    simp [task_on_exception, h]
  · intro h
    simp [task_on_exception, h]

/-- C8 witness: a 418 provider error is non-retryable and re-raised with the
run marked failed; a cause-less generic exception is retried with the fixed
60-second countdown. -/
theorem task_exception_classification_witness :
    is_retryable [.modelHTTPError 418] = false
    ∧ (task_on_exception dbProcessing (some 0) [.modelHTTPError 418]).2
        = .raiseNoRetry
    ∧ (task_on_exception dbProcessing (some 0) [.otherExc]).2
        = .retryTask 60 3 :=
  ⟨(task_exception_classification dbProcessing 0 [.otherExc] 418 []
      (by decide) (by decide)).1,
   (task_exception_classification dbProcessing 0 [.modelHTTPError 418] 418 []
      (by decide) (by decide)).2.2.1
      ((task_exception_classification dbProcessing 0 [.otherExc] 418 []
        (by decide) (by decide)).1),
   (task_exception_classification dbProcessing 0 [.otherExc] 418 []
      (by decide) (by decide)).2.2.2 rfl⟩

/-- A database holding one run (id 0, status processing) and no matched jobs:
the zero-MatchedJobs case of the completion detector. -/
def dbNoJobs : DB := { runs := [{ id := 0, status := .processing }] }

/-- An empty database: no run row exists for any id. -/
def dbEmpty : DB := {}

/-- C1 counterexample. In `dbNoJobs` the run exists and every MatchedJob of the
run (there are none) has both axes in `{completed, failed}` — the claim's
"iff" and its vacuous-completeness clause therefore demand `true` — yet the
code returns `false`, because of the explicit
`if not matched_jobs: return False` branch. -/
theorem check_run_completion_empty_run_counterexample :
    ((runJobs dbNoJobs 0).all researchFinished
      && (runJobs dbNoJobs 0).all fabricationFinished) = true
    ∧ (check_run_completion dbNoJobs 0 0).1 = false := by
  exact ⟨rfl, rfl⟩

/-- C1 (amended). The completion detector returns `true` iff the run row
exists, the run has at least one MatchedJob, and every MatchedJob of the run
has `research_status` and `fabrication_status` in `{completed, failed}`; in
particular a run with zero MatchedJobs is reported not complete. -/
theorem check_run_completion_iff (db : DB) (rid now : Nat) :
    (check_run_completion db rid now).1 = true ↔
      ((findRun db rid).isSome ∧ runJobs db rid ≠ []
        ∧ ((runJobs db rid).all researchFinished
            && (runJobs db rid).all fabricationFinished) = true) := by
  unfold check_run_completion
  cases hfind : findRun db rid with
  | none => simp [hfind]
  | some run =>
    simp only [hfind, Option.isSome_some, true_and]
    rcases eq_or_ne (runJobs db rid) [] with h0 | hne
    · simp [h0]
    · rw [if_neg (by simp [List.isEmpty_iff, hne])]
      split <;> simp [hne]

/-- C10. If no `Run` row exists for the given id, the completion detector
returns `false` and leaves the database untouched (no status or
`completed_at` write). -/
theorem check_run_completion_missing_run (db : DB) (rid now : Nat)
    (h : findRun db rid = none) :
    check_run_completion db rid now = (false, db) := by
  unfold check_run_completion
  rw [h]

/-- C10 witness: in the empty database run 0 does not exist and the detector
is a pure read returning `false`. -/
theorem check_run_completion_missing_run_witness :
    check_run_completion dbEmpty 0 0 = (false, dbEmpty) :=
  check_run_completion_missing_run dbEmpty 0 0 rfl

end JobAgent
